import Mathlib

/-
Shallow embedding of the process-embedding subsystem of src/app.py
(classes EmbeddedAppWidget and the helper find_main_window_for_pid).

Modelling conventions:
  - OS window-manager state is a list of Window records (one snapshot per
    enumeration); win32 style words are natural numbers (bit patterns).
  - Python "style & ~MASK" on the style word is Nat.ldiff style MASK.
  - The child process is a ProcSt: its ttl field says after how many more
    sleep ticks poll() starts reporting exit (none = runs until killed).
  - Primitive process-handle operations may raise an OS error; an oracle
    fail : Nat -> Bool says whether the k-th primitive call raises.
  - Qt timer ticks are modelled explicitly; the per-tick environment is the
    window snapshot the single enumeration of that tick sees.
-/

namespace Navegador

/-! ### win32con style constants (imported by src/app.py) -/

def WS_CAPTION : Nat := 0x00C00000

def WS_THICKFRAME : Nat := 0x00040000

def WS_MINIMIZEBOX : Nat := 0x00020000

def WS_MAXIMIZEBOX : Nat := 0x00010000

def WS_SYSMENU : Nat := 0x00080000

/-- WS_OVERLAPPEDWINDOW = WS_OVERLAPPED (0) | caption | sysmenu | thickframe
    | minimizebox | maximizebox. -/
def WS_OVERLAPPEDWINDOW : Nat :=
  WS_CAPTION ||| WS_SYSMENU ||| WS_THICKFRAME ||| WS_MINIMIZEBOX ||| WS_MAXIMIZEBOX

/-- The mask cleared at src/app.py lines 122-123:
    WS_CAPTION | WS_THICKFRAME | WS_MINIMIZEBOX | WS_MAXIMIZEBOX | WS_SYSMENU. -/
def decorMask : Nat :=
  WS_CAPTION ||| WS_THICKFRAME ||| WS_MINIMIZEBOX ||| WS_MAXIMIZEBOX ||| WS_SYSMENU

/-- `style &= ~(mask)` from src/app.py line 122: clear the decoration bits of
    the 32-bit style word (Python bitwise and-not on the window style). -/
def stripStyle (style : Nat) : Nat := Nat.ldiff style decorMask

/-! ### Window enumeration (find_main_window_for_pid, src/app.py lines 48-69) -/

/-- One top-level window as seen by the enumeration callback: its handle,
    visibility, owning process id, and style word. -/
structure Window where
  hwnd : Nat
  visible : Bool
  pid : Nat
  style : Nat
deriving DecidableEq, Repr

/-- The callback body (src/app.py lines 52-62): skip invisible windows, then
    require the owning pid to match and the style to carry the
    overlapped-window or caption bits (Python int truthiness = nonzero). -/
def windowMatches (pid : Nat) (w : Window) : Bool :=
  w.visible && w.pid == pid &&
    ((w.style &&& WS_OVERLAPPEDWINDOW != 0) || (w.style &&& WS_CAPTION != 0))

/-- win32gui.EnumWindows with the callback: walks the list in order and stops
    at the first match (callback returns False), yielding its handle. -/
def enumWindows (pid : Nat) : List Window → Option Nat
  | [] => none
  | w :: ws => if windowMatches pid w then some w.hwnd else enumWindows pid ws

/-- The retry loop of find_main_window_for_pid (lines 64-68): one enumeration
    per 100 ms step until the deadline; `snaps j` is the snapshot the j-th
    enumeration sees, `i` the current step, the last argument the number of
    enumeration attempts remaining before `time.time() < end` fails. -/
def findMainWindowForPid (pid : Nat) (snaps : Nat → List Window) : Nat → Nat → Option Nat
  | _, 0 => none
  | i, Nat.succ fuel =>
    match enumWindows pid (snaps i) with
    | some h => some h
    | none => findMainWindowForPid pid snaps (i + 1) fuel

/-! ### Launch paths (src/app.py lines 86-112) -/

/-- Outcome reported through self.info by the two launch paths. -/
inductive LaunchOutcome where
  | notFound (msg : String)
  | spawnFailed (msg : String)
  | launchedEmbedded (pid : Nat)
  | openedExternal
deriving DecidableEq, Repr

/-- A launch run: the reported outcome plus whether subprocess.Popen was
    reached at all. -/
structure LaunchRun where
  result : LaunchOutcome
  spawnAttempted : Bool
deriving DecidableEq, Repr

/-- _launch_and_embed, lines 102-112: the os.path.isfile guard short-circuits
    before Popen; a Popen exception is caught and reported; otherwise the
    process is spawned (the embedding timer is modelled separately). -/
def launchAndEmbed (isFile : String → Bool) (spawnRes : Except String Nat)
    (exePath : String) : LaunchRun :=
  if !(isFile exePath) then
    { result := .notFound ("No se encontró el ejecutable:\n" ++ exePath)
      spawnAttempted := false }
  else
    match spawnRes with
    | .error e =>
      { result := .spawnFailed ("No se pudo lanzar el proceso:\n" ++ e)
        spawnAttempted := true }
    | .ok pid => { result := .launchedEmbedded pid, spawnAttempted := true }

/-- _launch_external, lines 93-100: Popen inside try/except with no
    filesystem check; an exception is caught and reported in self.info. -/
def launchExternal (spawnRes : Except String Nat) : LaunchRun :=
  match spawnRes with
  | .error e =>
    { result := .spawnFailed ("Error lanzando app externa:\n" ++ e)
      spawnAttempted := true }
  | .ok _ => { result := .openedExternal, spawnAttempted := true }

/-- __init__, lines 86-91: on non-Windows platforms the widget goes through
    _launch_external, otherwise through _launch_and_embed. -/
def widgetInitLaunch (isWindows : Bool) (isFile : String → Bool)
    (spawnRes : Except String Nat) (exePath : String) : LaunchRun :=
  if !isWindows then launchExternal spawnRes
  else launchAndEmbed isFile spawnRes exePath

/-! ### Resize handler (src/app.py lines 136-145) -/

/-- The widget minimum size set at src/app.py line 79:
    self.setMinimumSize(QSize(300, 200)); Qt never reports a size below it. -/
def minimumSize : Nat × Nat := (300, 200)

/-- One win32gui.MoveWindow call: target handle, origin and extent. -/
structure MoveCall where
  hwnd : Nat
  x : Int
  y : Int
  w : Nat
  h : Nat
deriving DecidableEq, Repr

/-- _resize_embedded, lines 136-140: move the embedded window to
    (0, 0, max 1 width, max 1 height) when a handle is held; MoveWindow on a
    vanished handle raises win32gui.error, and the method has no handler, so
    the error propagates to the caller (the Except.error branch). -/
def resizeEmbedded (isWindows : Bool) (hwnd : Option Nat) (windowExists : Bool)
    (width height : Nat) : Except String (Option MoveCall) :=
  if isWindows then
    match hwnd with
    | none => .ok none
    | some hw =>
      if windowExists then
        .ok (some { hwnd := hw, x := 0, y := 0, w := max 1 width, h := max 1 height })
      else .error "win32gui.error: MoveWindow"
  else .ok none

/-! ### Process state and teardown (closeEvent, src/app.py lines 147-159) -/

/-- Observable events of the teardown path: a liveness poll (its result:
    true = still running, i.e. poll() returned None), the cooperative
    terminate() call, a time.sleep in milliseconds, and the kill() call. -/
inductive Event where
  | pollEv (running : Bool)
  | terminateEv
  | sleepEv (ms : Nat)
  | killEv
deriving DecidableEq, Repr

/-- The child process as the teardown path observes it: its pid and a
    time-to-live counting the sleep ticks after which poll() starts reporting
    an exit code (none = the process runs until it is killed). -/
structure ProcSt where
  pid : Nat
  ttl : Option Nat
deriving DecidableEq, Repr

/-- Result of one poll(): true while the process runs (poll() is None). -/
def procRunning (p : ProcSt) : Bool :=
  match p.ttl with
  | some 0 => false
  | _ => true

/-- A 100 ms sleep lets the process advance one tick toward its exit. -/
def sleepTick (p : ProcSt) : ProcSt :=
  { p with ttl := p.ttl.map (fun t => t - 1) }

/-- terminate(): the environment decides how the child reacts; a process that
    would otherwise run forever now exits after termResponse ticks (none =
    the child ignores the signal); a process already on its way out keeps
    its schedule. -/
def terminateProc (termResponse : Option Nat) (p : ProcSt) : ProcSt :=
  match p.ttl with
  | some t => { p with ttl := some t }
  | none => { p with ttl := termResponse }

/-- kill(): the process is gone by the next poll. -/
def killProc (p : ProcSt) : ProcSt := { p with ttl := some 0 }

/-- Outcome of a straight-line piece of the closeEvent body: the process
    state, the events performed in order, and (on ok) the index of the next
    primitive operation; exn means a primitive raised there. -/
inductive BOut where
  | ok (p : ProcSt) (evs : List Event) (k : Nat)
  | exn (p : ProcSt) (evs : List Event)
deriving Repr

/-- The grace loop of closeEvent (lines 151-154): up to `fuel` (= 20)
    iterations, each polling once, breaking once the process has exited and
    otherwise sleeping 100 ms; `fail` says whether the k-th primitive
    process-handle call raises. -/
def graceLoop (fail : Nat → Bool) : Nat → ProcSt → Nat → BOut
  | 0, p, k => .ok p [] k
  | Nat.succ n, p, k =>
    if fail k then .exn p []
    else if procRunning p then
      match graceLoop fail n (sleepTick p) (k + 1) with
      | .ok p2 evs k2 => .ok p2 (Event.pollEv true :: Event.sleepEv 100 :: evs) k2
      | .exn p2 evs => .exn p2 (Event.pollEv true :: Event.sleepEv 100 :: evs)
    else .ok p [Event.pollEv false] (k + 1)

/-- Outcome of the whole closeEvent body (inside the try): final
    self.proc value and event list; exn marks a raise inside the try. -/
inductive CBOut where
  | ok (p : Option ProcSt) (evs : List Event)
  | exn (p : Option ProcSt) (evs : List Event)
deriving Repr

/-- The try-block of closeEvent (lines 148-156): if a process is held and
    still alive, terminate it, run the grace loop, then kill if a final poll
    still reports it alive. -/
def closeEventBody (fail : Nat → Bool) (termR : Option Nat) :
    Option ProcSt → CBOut
  | none => .ok none []
  | some p =>
    if fail 0 then .exn (some p) []
    else if procRunning p = false then .ok (some p) [Event.pollEv false]
    else if fail 1 then .exn (some p) [Event.pollEv true]
    else
      let p1 := terminateProc termR p
      match graceLoop fail 20 p1 2 with
      | .exn p2 evs =>
        .exn (some p2) (Event.pollEv true :: Event.terminateEv :: evs)
      | .ok p2 evs k2 =>
        if fail k2 then
          .exn (some p2) (Event.pollEv true :: Event.terminateEv :: evs)
        else if procRunning p2 then
          if fail (k2 + 1) then
            .exn (some p2)
              (Event.pollEv true :: Event.terminateEv :: (evs ++ [Event.pollEv true]))
          else
            .ok (some (killProc p2))
              (Event.pollEv true :: Event.terminateEv ::
                (evs ++ [Event.pollEv true, Event.killEv]))
        else
          .ok (some p2)
            (Event.pollEv true :: Event.terminateEv :: (evs ++ [Event.pollEv false]))

/-- closeEvent with its catch-all `except Exception: pass`: whatever the body
    did stands, and nothing propagates. -/
def closeEventRun (fail : Nat → Bool) (termR : Option Nat) (s : Option ProcSt) :
    Option ProcSt × List Event :=
  match closeEventBody fail termR s with
  | .ok p evs => (p, evs)
  | .exn p evs => (p, evs)

/-- closeEvent as its caller sees it: the try/except turns every body
    outcome, raised or not, into a normal return. -/
def closeEventCall (fail : Nat → Bool) (termR : Option Nat) (s : Option ProcSt) :
    Except Unit (Option ProcSt × List Event) :=
  match closeEventBody fail termR s with
  | .ok p evs => .ok (p, evs)
  | .exn p evs => .ok (p, evs)

/-- The no-raise oracle: every primitive process-handle call succeeds. -/
def noFail : Nat → Bool := fun _ => false

/-- n successive closeEvent calls on the same widget, accumulating events. -/
def releaseN (fail : Nat → Bool) (termR : Option Nat) :
    Nat → Option ProcSt → Option ProcSt × List Event
  | 0, s => (s, [])
  | Nat.succ n, s =>
    let r1 := closeEventRun fail termR s
    let r2 := releaseN fail termR n r1.1
    (r2.1, r1.2 ++ r2.2)

/-- Is the event a signal actually delivered to the child process
    (the observable effect of a release)? -/
def isSignal (e : Event) : Bool :=
  match e with
  | .terminateEv => true
  | .killEv => true
  | _ => false

/-- The observable effects of a trace: the signals it delivers, in order. -/
def signals : List Event → List Event
  | [] => []
  | e :: es => if isSignal e then e :: signals es else signals es

/-- How many liveness polls a trace performs. -/
def pollCount : List Event → Nat
  | [] => 0
  | .pollEv _ :: es => pollCount es + 1
  | _ :: es => pollCount es

/-! ### Session-level timer model (try_embed, src/app.py lines 114-134) -/

/-- The per-widget state the timer callback and closeEvent share:
    self.proc, self.hwnd, and whether the QTimer is still active. -/
structure SessionSt where
  proc : Option ProcSt
  hwnd : Option Nat
  timerActive : Bool
deriving DecidableEq, Repr

/-- One timer tick running try_embed (lines 114-128): nothing happens when
    the timer is stopped, on non-Windows, or when self.proc is None (a Popen
    object is truthy even after the child exits, so a dead child does not
    stop the search); otherwise one enumeration runs (the 0.1 s per-call
    timeout of find_main_window_for_pid allows exactly one pass), and on a
    hit the window is embedded and the timer stopped. The second component
    counts the window-search enumerations performed by the tick. -/
def tryEmbedTick (isWindows : Bool) (ws : List Window) (s : SessionSt) :
    SessionSt × Nat :=
  if s.timerActive = false then (s, 0)
  else if !isWindows then (s, 0)
  else
    match s.proc with
    | none => (s, 0)
    | some p =>
      match enumWindows p.pid ws with
      | some h => ({ s with hwnd := some h, timerActive := false }, 1)
      | none => (s, 1)

/-- Run n timer ticks starting at tick index i; `env j` is the window
    snapshot the enumeration of tick j sees. Returns the final state and the
    total number of window-search enumerations performed. -/
def runTicksFrom (env : Nat → List Window) : Nat → Nat → SessionSt → SessionSt × Nat
  | _, 0, s => (s, 0)
  | i, Nat.succ n, s =>
    let r1 := tryEmbedTick true (env i) s
    let r2 := runTicksFrom env (i + 1) n r1.1
    (r2.1, r1.2 + r2.2)

/-- closeEvent at the session level: it runs the termination policy on
    self.proc but touches neither self.hwnd nor the timer (the QTimer is
    never stopped by closeEvent). -/
def sessionRelease (fail : Nat → Bool) (termR : Option Nat) (s : SessionSt) :
    SessionSt × List Event :=
  let r := closeEventRun fail termR s.proc
  ({ s with proc := r.1 }, r.2)

/-- A session in the searching state: process spawned (pid 7, would run
    until killed), no window yet, poll timer active. -/
def searchingSession : SessionSt :=
  { proc := some { pid := 7, ttl := none }, hwnd := none, timerActive := true }

/-- An environment in which no window for the child ever appears. -/
def emptyEnv : Nat → List Window := fun _ => []

/-- resizeEvent at the session level: _resize_embedded assigns no attribute of
    the widget, so on success the session state is returned unchanged; on a
    vanished window the win32gui.error propagates (no resulting state, and in
    particular no transition back to a searching state). -/
def sessionResizeEvent (s : SessionSt) (windowExists : Bool)
    (width height : Nat) : Except String (SessionSt × Option MoveCall) :=
  match resizeEmbedded true s.hwnd windowExists width height with
  | .ok mv => .ok (s, mv)
  | .error e => .error e

/-- A concrete visible main window of process 5 with the full
    overlapped-window decoration. -/
def demoWindow : Window :=
  { hwnd := 42, visible := true, pid := 5, style := 0x00CF0000 }

/-- Snapshots in which the demo window is always present. -/
def demoSnaps : Nat → List Window := fun _ => [demoWindow]

/-! ## Theorems -/

/-- C6: stripping decorations clears exactly the caption, thick-frame,
    minimize-box, maximize-box and system-menu bits of the style word
    (those bits are zero afterwards, every other bit is untouched), and the
    operation is idempotent: stripping an already-stripped style changes
    nothing, so stripping twice equals stripping once. -/
theorem stripStyle_clears_exactly_and_idempotent (style : Nat) :
    (∀ i, (stripStyle style).testBit i
        = (style.testBit i && !(decorMask.testBit i))) ∧
    stripStyle style &&& decorMask = 0 ∧
    stripStyle (stripStyle style) = stripStyle style := by
  refine ⟨fun i => Nat.testBit_ldiff style decorMask i, ?_, ?_⟩
  · apply Nat.eq_of_testBit_eq
    intro i
    simp only [stripStyle, Nat.testBit_land, Nat.testBit_ldiff, Nat.zero_testBit]
    cases style.testBit i <;> cases decorMask.testBit i <;> rfl
  · apply Nat.eq_of_testBit_eq
    intro i
    simp only [stripStyle, Nat.testBit_ldiff]
    cases style.testBit i <;> cases decorMask.testBit i <;> rfl

/-- C7: while a window is embedded (a handle is held and the window still
    exists), a resize notification moves the embedded window to origin (0,0)
    with width and height exactly the host size. The hypotheses 1 ≤ width and
    1 ≤ height hold for every size the host widget can report, because its
    minimum size is fixed at minimumSize = (300, 200) (src/app.py line 79),
    so the max-1 clamp of _resize_embedded never alters the value. -/
theorem resizeEmbedded_fills_host (hw width height : Nat)
    (hwidth : 1 ≤ width) (hheight : 1 ≤ height) :
    resizeEmbedded true (some hw) true width height =
      .ok (some { hwnd := hw, x := 0, y := 0, w := width, h := height }) := by
  simp [resizeEmbedded, Nat.max_eq_right hwidth, Nat.max_eq_right hheight]

/-- Witness for C7 at the minimum host size 300 × 200. -/
theorem resizeEmbedded_fills_host_witness :
    resizeEmbedded true (some 42) true 300 200 =
      .ok (some { hwnd := 42, x := 0, y := 0, w := 300, h := 200 }) :=
  resizeEmbedded_fills_host 42 300 200 (by decide) (by decide)

/-- C3: when the executable path is not an existing file, _launch_and_embed
    reports the not-found message naming the path and returns before the
    spawn call is ever reached. -/
theorem launchAndEmbed_notFound (isFile : String → Bool)
    (spawnRes : Except String Nat) (exePath : String)
    (h : isFile exePath = false) :
    launchAndEmbed isFile spawnRes exePath =
      { result := .notFound ("No se encontró el ejecutable:\n" ++ exePath)
        spawnAttempted := false } := by
  simp [launchAndEmbed, h]

/-- Witness for C3 on a filesystem without the target file. -/
theorem launchAndEmbed_notFound_witness :
    launchAndEmbed (fun _ => false) (Except.ok 1) "C:/missing.exe" =
      { result := .notFound ("No se encontró el ejecutable:\nC:/missing.exe")
        spawnAttempted := false } :=
  launchAndEmbed_notFound (fun _ => false) (Except.ok 1) "C:/missing.exe" rfl

/-- C10: the external-launch path taken on non-Windows platforms never
    consults the filesystem (its outcome is a function of the spawn result
    alone), always reaches the spawn call, never produces the not-found
    short-circuit of the embedding path, and surfaces a spawn failure as the
    external-launch error message. -/
theorem launchExternal_no_isfile_check :
    ∀ (isFile : String → Bool) (spawnRes : Except String Nat) (exePath : String),
      widgetInitLaunch false isFile spawnRes exePath = launchExternal spawnRes ∧
      (launchExternal spawnRes).spawnAttempted = true ∧
      (∀ m, (launchExternal spawnRes).result ≠ LaunchOutcome.notFound m) ∧
      (∀ e, spawnRes = Except.error e →
        (launchExternal spawnRes).result =
          LaunchOutcome.spawnFailed ("Error lanzando app externa:\n" ++ e)) := by
  intro isFile spawnRes exePath
  refine ⟨rfl, ?_, ?_, ?_⟩
  · cases spawnRes <;> rfl
  · intro m
    cases spawnRes <;> simp [launchExternal]
  · intro e he
    subst he
    rfl

/-- Witness for C10: a missing executable surfaces as the caught Popen error,
    reported externally, not as a not-found short-circuit. -/
theorem launchExternal_no_isfile_check_witness :
    (launchExternal (Except.error "FileNotFoundError")).result =
      LaunchOutcome.spawnFailed
        ("Error lanzando app externa:\nFileNotFoundError") :=
  (launchExternal_no_isfile_check (fun _ => false)
    (Except.error "FileNotFoundError") "C:/missing.exe").2.2.2
    "FileNotFoundError" rfl

/-- C8 counterexample: with a window embedded (handle 42 held) that has
    meanwhile vanished, a resize notification makes the resize handler raise
    the MoveWindow error to its caller (the call yields no session state at
    all, in particular no recovery to a searching state), contradicting the
    claim that no exception escapes. -/
theorem resize_handler_raises_counterexample :
    sessionResizeEvent
        { proc := some { pid := 7, ttl := none }, hwnd := some 42,
          timerActive := false } false 800 600 =
      Except.error "win32gui.error: MoveWindow" := by rfl

/-- C8 amended: closeEvent and both launch paths catch every exception, but
    the resize handler does not: whenever a handle is held and the window has
    vanished, the MoveWindow error propagates out of the resize handler, and
    the session is not moved back to a searching state (the handler produces
    no successor state at all). -/
theorem exception_escape_amended :
    (∀ (fail : Nat → Bool) (termR : Option Nat) (s : Option ProcSt),
       ∃ v, closeEventCall fail termR s = Except.ok v) ∧
    (∀ (pr : Option ProcSt) (hw : Nat) (ta : Bool) (width height : Nat),
       sessionResizeEvent { proc := pr, hwnd := some hw, timerActive := ta }
           false width height =
         Except.error "win32gui.error: MoveWindow") := by
  constructor
  · intro fail termR s
    unfold closeEventCall
    cases closeEventBody fail termR s with
    | ok p evs => exact ⟨(p, evs), rfl⟩
    | exn p evs => exact ⟨(p, evs), rfl⟩
  · intro pr hw ta width height
    rfl

/-- A successful enumeration pinpoints the first matching window: the list
    splits around a match and everything before it fails the callback. -/
theorem enumWindows_some_split (pid : Nat) (ws : List Window) (h : Nat)
    (hx : enumWindows pid ws = some h) :
    ∃ pre w post, ws = pre ++ w :: post ∧ windowMatches pid w = true ∧
      w.hwnd = h ∧ ∀ w2 ∈ pre, windowMatches pid w2 = false := by
  induction ws with
  | nil => simp [enumWindows] at hx
  | cons a as ih =>
    cases hm : windowMatches pid a with
    | true =>
      rw [enumWindows, hm] at hx
      simp only [if_true, Option.some.injEq] at hx
      exact ⟨[], a, as, rfl, hm, hx, by simp⟩
    | false =>
      rw [enumWindows, hm] at hx
      simp only [Bool.false_eq_true, if_false] at hx
      obtain ⟨pre, w, post, heq, h1, h2, h3⟩ := ih hx
      refine ⟨a :: pre, w, post, by rw [heq]; rfl, h1, h2, ?_⟩
      intro w2 hw2
      rcases List.mem_cons.1 hw2 with rfl | hmem
      · exact hm
      · exact h3 w2 hmem

/-- When no window of the snapshot passes the callback, the enumeration
    finds nothing. -/
theorem enumWindows_none_of_all (pid : Nat) (ws : List Window)
    (h : ∀ w ∈ ws, windowMatches pid w = false) :
    enumWindows pid ws = none := by
  induction ws with
  | nil => rfl
  | cons a as ih =>
    rw [enumWindows, h a (List.mem_cons_self a as)]
    simp only [Bool.false_eq_true, if_false]
    exact ih fun w hw => h w (List.mem_cons_of_mem a hw)

/-- A successful search identifies the first attempt whose enumeration hit. -/
theorem findFrom_some (pid : Nat) (snaps : Nat → List Window) :
    ∀ (fuel i h : Nat), findMainWindowForPid pid snaps i fuel = some h →
      ∃ d, d < fuel ∧ (∀ j, j < d → enumWindows pid (snaps (i + j)) = none) ∧
        enumWindows pid (snaps (i + d)) = some h := by
  intro fuel
  induction fuel with
  | zero => intro i h hx; simp [findMainWindowForPid] at hx
  | succ n ih =>
    intro i h hx
    rw [findMainWindowForPid] at hx
    cases he : enumWindows pid (snaps i) with
    | some h0 =>
      rw [he] at hx
      simp only [Option.some.injEq] at hx
      subst hx
      exact ⟨0, Nat.succ_pos n, by omega, by simpa using he⟩
    | none =>
      rw [he] at hx
      obtain ⟨d, hd, hnone, hsome⟩ := ih (i + 1) h hx
      refine ⟨d + 1, by omega, ?_, ?_⟩
      · intro j hj
        cases j with
        | zero => simpa using he
        | succ j2 =>
          have := hnone j2 (by omega)
          rw [show i + (j2 + 1) = i + 1 + j2 by omega]
          exact this
      · rw [show i + (d + 1) = i + 1 + d by omega]
        exact hsome

/-- When every attempt within the deadline enumerates without a hit, the
    search returns None. -/
theorem findFrom_none (pid : Nat) (snaps : Nat → List Window) :
    ∀ (fuel i : Nat), (∀ j, j < fuel → enumWindows pid (snaps (i + j)) = none) →
      findMainWindowForPid pid snaps i fuel = none := by
  intro fuel
  induction fuel with
  | zero => intro i _; rfl
  | succ n ih =>
    intro i h
    rw [findMainWindowForPid]
    have h0 : enumWindows pid (snaps i) = none := by simpa using h 0 (by omega)
    rw [h0]
    exact ih (i + 1) fun j hj => by
      rw [show i + 1 + j = i + (j + 1) by omega]
      exact h (j + 1) (by omega)

/-- The callback accepts a window exactly when it is visible, owned by the
    target pid, and decorated as an overlapped or captioned window. -/
theorem windowMatches_true_iff (pid : Nat) (w : Window) :
    windowMatches pid w = true ↔
      w.visible = true ∧ w.pid = pid ∧
        (w.style &&& WS_OVERLAPPEDWINDOW ≠ 0 ∨ w.style &&& WS_CAPTION ≠ 0) := by
  simp [windowMatches, Bool.and_eq_true, Bool.or_eq_true, beq_iff_eq,
    bne_iff_ne, and_assoc]

/-- C4: the window locator returns a handle only for a window that is
    visible, owned by the given pid, and carries the overlapped-window or
    caption style bits; the hit is the first qualifying window in enumeration
    order on the first attempt whose snapshot contains one; and when no
    window qualifies on any attempt before the deadline, it returns None. -/
theorem find_main_window_spec (pid : Nat) (snaps : Nat → List Window)
    (attempts : Nat) :
    (∀ h, findMainWindowForPid pid snaps 0 attempts = some h →
      ∃ i, i < attempts ∧ (∀ j, j < i → enumWindows pid (snaps j) = none) ∧
        ∃ pre w post, snaps i = pre ++ w :: post ∧ w.hwnd = h ∧
          w.visible = true ∧ w.pid = pid ∧
          (w.style &&& WS_OVERLAPPEDWINDOW ≠ 0 ∨ w.style &&& WS_CAPTION ≠ 0) ∧
          ∀ w2 ∈ pre, windowMatches pid w2 = false) ∧
    ((∀ i, i < attempts → ∀ w ∈ snaps i, windowMatches pid w = false) →
      findMainWindowForPid pid snaps 0 attempts = none) := by
  constructor
  · intro h hx
    obtain ⟨d, hd, hnone, hsome⟩ := findFrom_some pid snaps attempts 0 h hx
    simp only [Nat.zero_add] at hnone hsome
    obtain ⟨pre, w, post, heq, hm, hh, hpre⟩ := enumWindows_some_split pid _ h hsome
    obtain ⟨hv, hpid, hstyle⟩ := (windowMatches_true_iff pid w).1 hm
    exact ⟨d, hd, hnone, pre, w, post, heq, hh, hv, hpid, hstyle, hpre⟩
  · intro hall
    exact findFrom_none pid snaps attempts 0 fun j hj =>
      enumWindows_none_of_all pid _ fun w hw =>
        hall j (by omega) w (by simpa using hw)

/-- Witness for C4: the demo snapshots yield the demo window on the first
    attempt, and empty snapshots exhaust the deadline with None. -/
theorem find_main_window_spec_witness :
    (∃ i, i < 1 ∧ (∀ j, j < i → enumWindows 5 (demoSnaps j) = none) ∧
      ∃ pre w post, demoSnaps i = pre ++ w :: post ∧ w.hwnd = 42 ∧
        w.visible = true ∧ w.pid = 5 ∧
        (w.style &&& WS_OVERLAPPEDWINDOW ≠ 0 ∨ w.style &&& WS_CAPTION ≠ 0) ∧
        ∀ w2 ∈ pre, windowMatches 5 w2 = false) ∧
    findMainWindowForPid 5 emptyEnv 0 3 = none :=
  ⟨(find_main_window_spec 5 demoSnaps 1).1 42 (by decide),
   (find_main_window_spec 5 emptyEnv 3).2
     (fun i _ w hw => by simp [emptyEnv] at hw)⟩

/-- Signals distribute over trace concatenation. -/
theorem signals_append (a b : List Event) :
    signals (a ++ b) = signals a ++ signals b := by
  induction a with
  | nil => rfl
  | cons e es ih =>
    cases he : isSignal e <;> simp [signals, he, ih]

/-- A trace that delivers no signal contains neither terminate nor kill. -/
theorem not_mem_of_signals_nil (evs : List Event) (h : signals evs = []) :
    Event.terminateEv ∉ evs ∧ Event.killEv ∉ evs := by
  induction evs with
  | nil => simp
  | cons e es ih =>
    cases he : isSignal e with
    | true => rw [signals, he] at h; simp at h
    | false =>
      rw [signals, he] at h
      obtain ⟨h1, h2⟩ := ih h
      constructor
      · intro hm
        rcases List.mem_cons.1 hm with rfl | hm2
        · simp [isSignal] at he
        · exact h1 hm2
      · intro hm
        rcases List.mem_cons.1 hm with rfl | hm2
        · simp [isSignal] at he
        · exact h2 hm2

/-- Under the no-raise oracle the grace loop always completes, polls at most
    `n` times, sleeps only 100 ms at a time, and delivers no signal. -/
theorem graceLoop_noFail_ok :
    ∀ (n : Nat) (p : ProcSt) (k : Nat),
      ∃ p2 evs k2, graceLoop noFail n p k = .ok p2 evs k2 ∧
        pollCount evs ≤ n ∧ (∀ ms, Event.sleepEv ms ∈ evs → ms = 100) ∧
        signals evs = [] := by
  intro n
  induction n with
  | zero => intro p k; exact ⟨p, [], k, rfl, by simp [pollCount], by simp, rfl⟩
  | succ n ih =>
    intro p k
    cases hr : procRunning p with
    | false =>
      refine ⟨p, [Event.pollEv false], k + 1, ?_, ?_, ?_, rfl⟩
      · simp [graceLoop, noFail, hr]
      · simp [pollCount]
      · intro ms hm; simp at hm
    | true =>
      obtain ⟨p2, evs, k2, heq, hc, hs, hsig⟩ := ih (sleepTick p) (k + 1)
      refine ⟨p2, Event.pollEv true :: Event.sleepEv 100 :: evs, k2, ?_, ?_, ?_, ?_⟩
      · simp [graceLoop, noFail, hr, heq]
      · simp [pollCount]; omega
      · intro ms hm
        simp only [List.mem_cons] at hm
        rcases hm with h1 | h1 | h1
        · exact absurd h1 (by simp)
        · injection h1
        · exact hs ms h1
      · simpa [signals, isSignal] using hsig

/-- C1: on closeEvent, no process or an already-exited process provokes
    neither terminate nor kill; a still-alive process is first sent the
    cooperative terminate, then polled at most 20 times with only 100 ms
    sleeps in between, and the forced kill is issued exactly when the process
    is still alive after those polls. -/
theorem closeEvent_termination_policy (termR : Option Nat) (p : ProcSt) :
    closeEventRun noFail termR none = (none, []) ∧
    (procRunning p = false →
      closeEventRun noFail termR (some p) = (some p, [Event.pollEv false])) ∧
    (procRunning p = true →
      ∃ p2 evs k2,
        graceLoop noFail 20 (terminateProc termR p) 2 = BOut.ok p2 evs k2 ∧
        pollCount evs ≤ 20 ∧
        (∀ ms, Event.sleepEv ms ∈ evs → ms = 100) ∧
        signals evs = [] ∧
        closeEventRun noFail termR (some p) =
          (if procRunning p2 then
            (some (killProc p2),
              Event.pollEv true :: Event.terminateEv ::
                (evs ++ [Event.pollEv true, Event.killEv]))
          else
            (some p2,
              Event.pollEv true :: Event.terminateEv ::
                (evs ++ [Event.pollEv false]))) ∧
        (Event.killEv ∈ (closeEventRun noFail termR (some p)).2 ↔
          procRunning p2 = true)) := by
  refine ⟨rfl, ?_, ?_⟩
  · intro h
    simp [closeEventRun, closeEventBody, noFail, h]
  · intro h
    obtain ⟨p2, evs, k2, heq, hc, hs, hsig⟩ :=
      graceLoop_noFail_ok 20 (terminateProc termR p) 2
    refine ⟨p2, evs, k2, heq, hc, hs, hsig, ?_, ?_⟩
    · cases hr2 : procRunning p2 <;>
        simp [closeEventRun, closeEventBody, noFail, h, heq, hr2]
    · cases hr2 : procRunning p2 with
      | true =>
        simp [closeEventRun, closeEventBody, noFail, h, heq, hr2]
      | false =>
        have hnk := (not_mem_of_signals_nil evs hsig).2
        simp [closeEventRun, closeEventBody, noFail, h, heq, hr2, hnk]

/-- Witness for C1 on a live child (pid 1) that exits as soon as it is asked
    to terminate. -/
theorem closeEvent_termination_policy_witness :
    ∃ p2 evs k2,
      graceLoop noFail 20 (terminateProc (some 0) { pid := 1, ttl := none }) 2 =
        BOut.ok p2 evs k2 ∧
      pollCount evs ≤ 20 ∧
      (∀ ms, Event.sleepEv ms ∈ evs → ms = 100) ∧
      signals evs = [] ∧
      closeEventRun noFail (some 0) (some { pid := 1, ttl := none }) =
        (if procRunning p2 then
          (some (killProc p2),
            Event.pollEv true :: Event.terminateEv ::
              (evs ++ [Event.pollEv true, Event.killEv]))
        else
          (some p2,
            Event.pollEv true :: Event.terminateEv ::
              (evs ++ [Event.pollEv false]))) ∧
      (Event.killEv ∈
          (closeEventRun noFail (some 0) (some { pid := 1, ttl := none })).2 ↔
        procRunning p2 = true) :=
  (closeEvent_termination_policy (some 0) { pid := 1, ttl := none }).2.2 (by decide)

/-- closeEvent on an already-exited process only polls once. -/
theorem closeEventRun_dead (termR : Option Nat) (q : ProcSt)
    (hq : procRunning q = false) :
    closeEventRun noFail termR (some q) = (some q, [Event.pollEv false]) := by
  simp [closeEventRun, closeEventBody, noFail, hq]

/-- After a no-raise closeEvent the held process, if any, reports exited. -/
theorem closeEventRun_post (termR : Option Nat) (s : Option ProcSt) :
    (closeEventRun noFail termR s).1 = none ∨
      ∃ q, (closeEventRun noFail termR s).1 = some q ∧ procRunning q = false := by
  cases s with
  | none => exact Or.inl rfl
  | some p =>
    cases hr : procRunning p with
    | false => exact Or.inr ⟨p, by rw [closeEventRun_dead termR p hr], hr⟩
    | true =>
      obtain ⟨p2, evs, k2, heq, _, _, _⟩ :=
        graceLoop_noFail_ok 20 (terminateProc termR p) 2
      cases hr2 : procRunning p2 with
      | true =>
        refine Or.inr ⟨killProc p2, ?_, rfl⟩
        simp [closeEventRun, closeEventBody, noFail, hr, heq, hr2]
      | false =>
        refine Or.inr ⟨p2, ?_, hr2⟩
        simp [closeEventRun, closeEventBody, noFail, hr, heq, hr2]

/-- Further closeEvent calls on a dead-or-absent process leave the state
    unchanged and deliver no signal. -/
theorem releaseN_of_dead (termR : Option Nat) :
    ∀ (n : Nat) (s1 : Option ProcSt),
      (s1 = none ∨ ∃ q, s1 = some q ∧ procRunning q = false) →
      (releaseN noFail termR n s1).1 = s1 ∧
        signals (releaseN noFail termR n s1).2 = [] := by
  intro n
  induction n with
  | zero => intro s1 _; exact ⟨rfl, rfl⟩
  | succ n ih =>
    intro s1 hdead
    rcases hdead with rfl | ⟨q, rfl, hq⟩
    · have h1 : closeEventRun noFail termR none = (none, []) := rfl
      obtain ⟨ha, hb⟩ := ih none (Or.inl rfl)
      exact ⟨by simp [releaseN, h1, ha], by simp [releaseN, h1, hb, signals]⟩
    · have h1 := closeEventRun_dead termR q hq
      obtain ⟨ha, hb⟩ := ih (some q) (Or.inr ⟨q, rfl, hq⟩)
      exact ⟨by simp [releaseN, h1, ha],
        by simp [releaseN, h1, hb, signals_append, signals, isSignal]⟩

/-- C2: closeEvent never lets an exception reach its caller (the catch-all
    handler absorbs every primitive failure, whatever the oracle), it is a
    no-op when no process was ever spawned and when the process has already
    exited, and calling it n ≥ 1 times leaves the same process state and
    delivers the same signals as calling it once. -/
theorem release_idempotent_and_safe :
    ∀ (fail : Nat → Bool) (termR : Option Nat) (s : Option ProcSt) (n : Nat),
      (∃ v, closeEventCall fail termR s = Except.ok v) ∧
      (1 ≤ n →
        (releaseN noFail termR n s).1 = (closeEventRun noFail termR s).1 ∧
        signals (releaseN noFail termR n s).2 =
          signals (closeEventRun noFail termR s).2) ∧
      closeEventRun noFail termR none = (none, []) ∧
      (∀ q, procRunning q = false →
        closeEventRun noFail termR (some q) = (some q, [Event.pollEv false])) := by
  intro fail termR s n
  refine ⟨?_, ?_, rfl, fun q hq => closeEventRun_dead termR q hq⟩
  · unfold closeEventCall
    cases closeEventBody fail termR s with
    | ok p evs => exact ⟨(p, evs), rfl⟩
    | exn p evs => exact ⟨(p, evs), rfl⟩
  · intro hn
    obtain ⟨m, rfl⟩ : ∃ m, n = m + 1 := ⟨n - 1, by omega⟩
    obtain ⟨ha, hb⟩ :=
      releaseN_of_dead termR m (closeEventRun noFail termR s).1
        (closeEventRun_post termR s)
    constructor
    · simp [releaseN, ha]
    · simp [releaseN, signals_append, hb]

/-- Witness for C2: three releases of a live child equal one release. -/
theorem release_idempotent_and_safe_witness :
    (releaseN noFail (some 5) 3 (some { pid := 1, ttl := none })).1 =
      (closeEventRun noFail (some 5) (some { pid := 1, ttl := none })).1 ∧
    signals (releaseN noFail (some 5) 3 (some { pid := 1, ttl := none })).2 =
      signals (closeEventRun noFail (some 5) (some { pid := 1, ttl := none })).2 :=
  (release_idempotent_and_safe noFail (some 5)
    (some { pid := 1, ttl := none }) 3).2.1 (by decide)

/-- When the enumeration never finds a window of the child, the searching
    session is a fixed point of the tick loop: every tick performs one more
    enumeration and changes nothing. -/
theorem runTicks_stuck (env : Nat → List Window) (s : SessionSt) (p : ProcSt)
    (hrun : s.timerActive = true) (hproc : s.proc = some p)
    (henv : ∀ i, enumWindows p.pid (env i) = none) :
    ∀ (n i : Nat), runTicksFrom env i n s = (s, n) := by
  intro n
  induction n with
  | zero => intro i; rfl
  | succ n ih =>
    intro i
    have htick : tryEmbedTick true (env i) s = (s, 1) := by
      simp [tryEmbedTick, hrun, hproc, henv i]
    simp [runTicksFrom, htick, ih (i + 1), Nat.add_comm]

/-- C5 counterexample: with a spawned child whose window never appears, after
    one million 100 ms ticks (about 28 hours, far past any 5-10 s deadline)
    the session is bit-for-bit the same searching state, has enumerated once
    per tick, reached no external-only or failed fallback, and its next tick
    still performs another window search. -/
theorem search_deadline_counterexample :
    runTicksFrom emptyEnv 0 1000000 searchingSession =
      (searchingSession, 1000000) ∧
    (runTicksFrom emptyEnv 0 1000000 searchingSession).1.timerActive = true ∧
    (tryEmbedTick true []
      (runTicksFrom emptyEnv 0 1000000 searchingSession).1).2 = 1 := by
  have h := runTicks_stuck emptyEnv searchingSession { pid := 7, ttl := none }
    rfl rfl (fun _ => rfl) 1000000 0
  refine ⟨h, ?_, ?_⟩ <;> rw [h]
  · rfl
  · rfl

/-- C5 amended: the search phase has no overall deadline: as long as no
    matching window appears, the session polls the window manager on every
    100 ms tick indefinitely, never stops the timer, never reaches an
    external-only or failed fallback, and never touches the child process
    (which therefore stays alive). -/
theorem search_polls_indefinitely (env : Nat → List Window) (s : SessionSt)
    (p : ProcSt) (hrun : s.timerActive = true) (hproc : s.proc = some p)
    (henv : ∀ i, enumWindows p.pid (env i) = none) (n i : Nat) :
    runTicksFrom env i n s = (s, n) ∧
    (runTicksFrom env i n s).1.timerActive = true ∧
    (runTicksFrom env i n s).1.proc = some p := by
  have h := runTicks_stuck env s p hrun hproc henv n i
  exact ⟨h, by rw [h]; exact hrun, by rw [h]; exact hproc⟩

/-- Witness for the amended C5 after fifty fruitless ticks. -/
theorem search_polls_indefinitely_witness :
    runTicksFrom emptyEnv 0 50 searchingSession = (searchingSession, 50) ∧
    (runTicksFrom emptyEnv 0 50 searchingSession).1.timerActive = true ∧
    (runTicksFrom emptyEnv 0 50 searchingSession).1.proc =
      some { pid := 7, ttl := none } :=
  search_polls_indefinitely emptyEnv searchingSession { pid := 7, ttl := none }
    rfl rfl (fun _ => rfl) 50 0

/-- A closeEvent never discards the held process object (self.proc is never
    reassigned), whatever the failure oracle. -/
theorem closeEventRun_keeps_some (fail : Nat → Bool) (termR : Option Nat)
    (p : ProcSt) :
    ∃ q, (closeEventRun fail termR (some p)).1 = some q := by
  cases hf0 : fail 0 with
  | true => exact ⟨p, by simp [closeEventRun, closeEventBody, hf0]⟩
  | false =>
    cases hr : procRunning p with
    | false => exact ⟨p, by simp [closeEventRun, closeEventBody, hf0, hr]⟩
    | true =>
      cases hf1 : fail 1 with
      | true => exact ⟨p, by simp [closeEventRun, closeEventBody, hf0, hr, hf1]⟩
      | false =>
        cases hg : graceLoop fail 20 (terminateProc termR p) 2 with
        | exn p2 evs =>
          exact ⟨p2, by simp [closeEventRun, closeEventBody, hf0, hr, hf1, hg]⟩
        | ok p2 evs k2 =>
          cases hfk : fail k2 with
          | true =>
            exact ⟨p2,
              by simp [closeEventRun, closeEventBody, hf0, hr, hf1, hg, hfk]⟩
          | false =>
            cases hr2 : procRunning p2 with
            | false =>
              exact ⟨p2,
                by simp [closeEventRun, closeEventBody, hf0, hr, hf1, hg, hfk, hr2]⟩
            | true =>
              cases hfk1 : fail (k2 + 1) with
              | true =>
                exact ⟨p2, by
                  simp [closeEventRun, closeEventBody, hf0, hr, hf1, hg, hfk,
                    hr2, hfk1]⟩
              | false =>
                exact ⟨killProc p2, by
                  simp [closeEventRun, closeEventBody, hf0, hr, hf1, hg, hfk,
                    hr2, hfk1]⟩

/-- C9 counterexample: release is called while the session is still
    searching; the release completes (the terminate signal is delivered and
    the child exits), yet the very next timer tick still performs a
    window-search enumeration, because closeEvent never stops the timer. -/
theorem release_cancels_search_counterexample :
    signals (sessionRelease noFail (some 0) searchingSession).2 =
      [Event.terminateEv] ∧
    (sessionRelease noFail (some 0) searchingSession).1.timerActive = true ∧
    (tryEmbedTick true []
      (sessionRelease noFail (some 0) searchingSession).1).2 = 1 := by
  refine ⟨rfl, rfl, rfl⟩

/-- C9 amended: release runs the process-teardown policy on the held process
    regardless of the session state, but it does not cancel the in-flight
    search: the poll timer stays active, the held window reference is
    untouched, and the next tick still performs a window-search
    enumeration. -/
theorem release_proceeds_but_search_continues (fail : Nat → Bool)
    (termR : Option Nat) (s : SessionSt) (ws : List Window) (p : ProcSt)
    (hp : s.proc = some p) (ht : s.timerActive = true) :
    (sessionRelease fail termR s).1.timerActive = true ∧
    (sessionRelease fail termR s).1.hwnd = s.hwnd ∧
    (sessionRelease fail termR s).2 = (closeEventRun fail termR s.proc).2 ∧
    (tryEmbedTick true ws (sessionRelease fail termR s).1).2 = 1 := by
  refine ⟨by simp [sessionRelease, ht], by simp [sessionRelease], rfl, ?_⟩
  obtain ⟨q, hq⟩ := closeEventRun_keeps_some fail termR p
  have hproc2 : (sessionRelease fail termR s).1.proc = some q := by
    simp [sessionRelease, hp, hq]
  have htimer : (sessionRelease fail termR s).1.timerActive = true := by
    simp [sessionRelease, ht]
  cases he : enumWindows q.pid ws <;>
    simp [tryEmbedTick, htimer, hproc2, he]

/-- Witness for the amended C9 in the searching state. -/
theorem release_proceeds_but_search_continues_witness :
    (sessionRelease noFail (some 0) searchingSession).1.timerActive = true ∧
    (sessionRelease noFail (some 0) searchingSession).1.hwnd =
      searchingSession.hwnd ∧
    (sessionRelease noFail (some 0) searchingSession).2 =
      (closeEventRun noFail (some 0) searchingSession.proc).2 ∧
    (tryEmbedTick true []
      (sessionRelease noFail (some 0) searchingSession).1).2 = 1 :=
  release_proceeds_but_search_continues noFail (some 0) searchingSession []
    { pid := 7, ttl := none } rfl rfl

end Navegador
